import Mathlib

/-!
# Vault MinIO database plugin: credential lifecycle manager

A shallow embedding of `minio.go` and `client.go`.

* Go strings are byte sequences (`GoString`).
* Go `error` values are modelled by `GoError`: a text and, for errors built with
  the `%w` verb, the wrapped error.
* The receiver `*Minio` is passed in and, for `Initialize`, returned.
* Every operation threads the list of observable events issued so far (lock
  operations, accesses to the two shared fields, remote administrative calls)
  and returns it extended by its own events, in source order.
* Library code the plugin calls (`strutil.GetString`, the Vault template engine,
  `json.Unmarshal`, `madmin.New` and the remote administrative endpoints) is
  collected in `Env`; the theorems hold for every `Env` unless they say otherwise.
-/

namespace VaultMinio

/-! ## Strings, errors, results -/

/-- A Go string: an immutable sequence of bytes. -/
abbrev GoString := List UInt8

/-- The bytes of an ASCII literal. -/
def ascii (s : String) : GoString := s.toList.map fun c => c.toNat.toUInt8

/-- The double quote byte. -/
def dquote : UInt8 := 34

/-- A Go `error` value: `new` is an error carrying only a text (`errors.New`, or any
library error), `wrap` is the result of `fmt.Errorf` with a `%w` verb, whose text
already has the wrapped error's text substituted. -/
inductive GoError where
  | new (text : GoString)
  | wrap (text : GoString) (inner : GoError)
deriving DecidableEq, Repr

/-- The method `Error()`. -/
def GoError.Error : GoError → GoString
  | .new text => text
  | .wrap text _ => text

/-- The call `fmt.Errorf(pre + "%w", err)`. -/
def Errorf (pre : GoString) (err : GoError) : GoError :=
  .wrap (pre ++ err.Error) err

/-- The outcome of a Go function returning `(T, error)`: a value with a nil error,
an error, or a run-time panic. -/
inductive Res (α : Type) where
  | ok (val : α)
  | err (e : GoError)
  | panicked
deriving DecidableEq, Repr

/-- The package variable `dbutil.ErrEmptyCreationStatement`. -/
def ErrEmptyCreationStatement : GoError := .new (ascii "empty creation statements")

/-! ## Data model -/

/-- A value of type `interface{}` held in a configuration map. -/
inductive Value where
  | str (s : GoString)
  | bool (b : Bool)
  | number (n : Int)
  | null
deriving DecidableEq, Repr

/-- Lookup in the entries of a map. -/
def lookup (key : GoString) : List (GoString × Value) → Option Value
  | [] => none
  | (k, v) :: rest => if k = key then some v else lookup key rest

/-- A `map[string]interface{}`; `none` is the nil map. -/
abbrev Config := Option (List (GoString × Value))

/-- The index expression `config[key]` in its comma-ok form; a nil map has no key. -/
def Config.get (config : Config) (key : GoString) : Option Value :=
  match config with
  | none => none
  | some entries => lookup key entries

/-- A compiled `template.StringTemplate`, identified by its raw template text. -/
structure StringTemplate where
  rawTemplate : GoString
deriving DecidableEq, Repr

/-- The high level fields of `dbplugin.UsernameMetadata`. -/
structure UsernameMetadata where
  DisplayName : GoString := []
  RoleName : GoString := []
deriving DecidableEq, Repr

/-- The struct `CreationStatement`. -/
structure CreationStatement where
  Policy : GoString := []
deriving DecidableEq, Repr

/-- The struct `MinioClientConfig`. -/
structure MinioClientConfig where
  Username : GoString
  Password : GoString
  BaseURL : GoString
  UseSSL : Bool
deriving DecidableEq, Repr

/-- A `madmin.AdminClient`, identified by the arguments `madmin.New` built it from. -/
structure AdminClient where
  endpoint : GoString
  accessKeyID : GoString
  secretAccessKey : GoString
  secure : Bool
deriving DecidableEq, Repr

/-- The struct `MinioClient`. -/
structure MinioClient where
  Client : AdminClient
  Config : MinioClientConfig
deriving DecidableEq, Repr

/-- The type `madmin.AccountStatus`. -/
inductive AccountStatus where
  | AccountEnabled
  | AccountDisabled
deriving DecidableEq, Repr

/-- A remote administrative call, with its arguments (the context apart). -/
inductive Call where
  | ServerInfo
  | AddUser (accessKey secretKey : GoString)
  | SetPolicy (policyName entityName : GoString) (isGroup : Bool)
  | SetUser (accessKey secretKey : GoString) (status : AccountStatus)
  | RemoveUser (accessKey : GoString)
deriving DecidableEq, Repr

/-- What an operation does that another goroutine or the remote side can observe:
operations on `mux`, accesses to the fields `config` and `usernameProducer`, and
remote calls through an admin client. -/
inductive Event where
  | Lock
  | Unlock
  | RLock
  | RUnlock
  | readConfig
  | readProducer
  | writeConfig
  | writeProducer
  | remote (client : AdminClient) (call : Call)
deriving DecidableEq, Repr

/-- The struct `Minio` (the mutex is represented by the lock events). -/
structure Minio where
  config : Config
  usernameProducer : StringTemplate
deriving DecidableEq, Repr

/-- The zero value `&Minio{}` built by `New`. -/
def New : Minio := { config := none, usernameProducer := { rawTemplate := [] } }

/-- The method `Type`. -/
def «Type» : GoString := ascii "minio"

/-- The library code the plugin calls. Results may depend on the events issued so
far, which stands for the hidden state of the clock, the random source and the
remote server. -/
structure Env where
  /-- The function `strutil.GetString`. -/
  GetString : Config → GoString → Except GoError GoString
  /-- The call `template.NewTemplate(template.Template(raw))`. -/
  NewTemplate : GoString → Except GoError StringTemplate
  /-- The method `StringTemplate.Generate`. -/
  Generate : List Event → StringTemplate → UsernameMetadata → Except GoError GoString
  /-- The call `json.Unmarshal` into a fresh `CreationStatement`. -/
  Unmarshal : GoString → Except GoError CreationStatement
  /-- The error result of `madmin.New`; `none` is nil. -/
  madminNew : GoString → GoString → GoString → Bool → Option GoError
  /-- The error result of a remote call through an admin client; `none` is nil. -/
  respond : List Event → AdminClient → Call → Option GoError

/-! ## client.go -/

/-- The function `strconv.ParseBool`; `none` stands for its syntax error, which
comes with the value `false`. -/
def ParseBool (str : GoString) : Option Bool :=
  if str ∈ [ascii "1", ascii "t", ascii "T", ascii "true", ascii "TRUE", ascii "True"] then
    some true
  else if str ∈ [ascii "0", ascii "f", ascii "F", ascii "false", ascii "FALSE", ascii "False"] then
    some false
  else
    none

/-- The type assertion `v.(string)` in its single-result form on the result of a
map index expression: `none` is the run-time panic raised for a missing key (a nil
interface) or a value of another dynamic type. -/
def assertString : Option Value → Option GoString
  | some (.str s) => some s
  | _ => none

/-- The function `BuildClient`. The error of `ParseBool` is discarded (`useSSL, _ :=`),
so an unparsable flag is `false`. -/
def BuildClient (env : Env) (config : Config) : Res MinioClient :=
  match assertString (config.get (ascii "useSSL")) with
  | none => .panicked
  | some flag =>
    let useSSL := (ParseBool flag).getD false
    match assertString (config.get (ascii "username")) with
    | none => .panicked
    | some username =>
      match assertString (config.get (ascii "password")) with
      | none => .panicked
      | some password =>
        match assertString (config.get (ascii "url")) with
        | none => .panicked
        | some url =>
          let clientConfig : MinioClientConfig :=
            { Username := username, Password := password, BaseURL := url, UseSSL := useSSL }
          match env.madminNew clientConfig.BaseURL clientConfig.Username
              clientConfig.Password clientConfig.UseSSL with
          | some err => .err err
          | none =>
            .ok { Client := { endpoint := clientConfig.BaseURL,
                              accessKeyID := clientConfig.Username,
                              secretAccessKey := clientConfig.Password,
                              secure := clientConfig.UseSSL },
                  Config := clientConfig }

/-- The method `MinioClient.CreateUser`: the returned error (`none` is nil) and the
extended event list. The expiration argument is not used by the source. -/
def MinioClient.CreateUser (env : Env) (c : MinioClient) (tr : List Event)
    (username password : GoString) (stmt : CreationStatement) (_expiration : Int) :
    Option GoError × List Event :=
  let tr1 := tr ++ [.remote c.Client (.AddUser username password)]
  match env.respond tr c.Client (.AddUser username password) with
  | some err =>
    (some (Errorf (ascii "can't create user: " ++ username ++ ascii ", ") err), tr1)
  | none =>
    let tr2 := tr1 ++ [.remote c.Client (.SetPolicy stmt.Policy username false)]
    match env.respond tr1 c.Client (.SetPolicy stmt.Policy username false) with
    | some err =>
      (some (Errorf (ascii "can't set policy " ++ stmt.Policy ++ ascii " for user: "
        ++ username ++ ascii ", ") err), tr2)
    | none => (none, tr2)

/-- The method `MinioClient.UpdateUser`. -/
def MinioClient.UpdateUser (env : Env) (c : MinioClient) (tr : List Event)
    (username password : GoString) : Option GoError × List Event :=
  let tr1 := tr ++ [.remote c.Client (.SetUser username password .AccountEnabled)]
  match env.respond tr c.Client (.SetUser username password .AccountEnabled) with
  | some err =>
    (some (Errorf (ascii "can't change password for user: " ++ username ++ ascii ", ") err), tr1)
  | none => (none, tr1)

/-- The method `MinioClient.DeleteUser`. -/
def MinioClient.DeleteUser (env : Env) (c : MinioClient) (tr : List Event)
    (username : GoString) : Option GoError × List Event :=
  let tr1 := tr ++ [.remote c.Client (.RemoveUser username)]
  match env.respond tr c.Client (.RemoveUser username) with
  | some err =>
    (some (Errorf (ascii "can't delete user: " ++ username ++ ascii ", ") err), tr1)
  | none => (none, tr1)

/-! ## minio.go -/

/-- The text of the constant `defaultUserNameTemplate`. -/
def defaultUserNameTemplate : GoString :=
  ascii "\x7b\x7b printf " ++ [dquote] ++ ascii "v-%s-%s-%s-%s" ++ [dquote]
    ++ ascii " (.DisplayName | truncate 15) (.RoleName | truncate 15) (random 20) (unix_time) | truncate 100 \x7d\x7d"

/-- The struct `dbplugin.InitializeRequest`. -/
structure InitializeRequest where
  Config : Config
  VerifyConnection : Bool
deriving DecidableEq, Repr

/-- The struct `dbplugin.InitializeResponse`. -/
structure InitializeResponse where
  Config : Config := none
deriving DecidableEq, Repr

/-- The struct `dbplugin.Statements`. -/
structure Statements where
  Commands : List GoString := []
deriving DecidableEq, Repr

/-- The fields of `dbplugin.NewUserRequest` the plugin reads. -/
structure NewUserRequest where
  UsernameConfig : UsernameMetadata
  Statements : Statements
  Password : GoString
  Expiration : Int
deriving DecidableEq, Repr

/-- The struct `dbplugin.NewUserResponse`. -/
structure NewUserResponse where
  Username : GoString := []
deriving DecidableEq, Repr

/-- The struct `dbplugin.ChangePassword`. -/
structure ChangePassword where
  NewPassword : GoString
  Statements : Statements
deriving DecidableEq, Repr

/-- The fields of `dbplugin.UpdateUserRequest` the plugin reads; `Password` is a
pointer, `none` is nil. -/
structure UpdateUserRequest where
  Username : GoString
  Password : Option ChangePassword
deriving DecidableEq, Repr

/-- The struct `dbplugin.UpdateUserResponse`. -/
structure UpdateUserResponse where
deriving DecidableEq, Repr

/-- The fields of `dbplugin.DeleteUserRequest` the plugin reads. -/
structure DeleteUserRequest where
  Username : GoString
  Statements : Statements
deriving DecidableEq, Repr

/-- The struct `dbplugin.DeleteUserResponse`. -/
structure DeleteUserResponse where
deriving DecidableEq, Repr

/-- What a method of `*Minio` leaves behind: its result, the receiver afterwards and
the events issued so far. -/
structure Out (α : Type) where
  res : Res α
  minio : Minio
  trace : List Event

/-- The verb `%q` on a key of the required-field list: the key between double
quotes (these keys hold no byte that `strconv.Quote` escapes). -/
def fmtQ (s : GoString) : GoString := [dquote] ++ s ++ [dquote]

/-- The slice ranged over by the validation loop of `Initialize`. -/
def requiredFields : List GoString :=
  [ascii "username", ascii "password", ascii "url", ascii "useSSL"]

/-- The validation loop of `Initialize` over the remaining fields: the error of the
first `return` reached, `none` when the loop runs to its end. -/
def checkRequired (config : Config) : List GoString → Option GoError
  | [] => none
  | requiredField :: rest =>
    match config.get requiredField with
    | none => some (.new (fmtQ requiredField ++ ascii " must be provided"))
    | some (.str _) => checkRequired config rest
    | some _ => some (.new (fmtQ requiredField ++ ascii " must be a string"))

/-- The method `Initialize`. -/
def Initialize (env : Env) (minio : Minio) (tr : List Event) (req : InitializeRequest) :
    Out InitializeResponse :=
  match env.GetString req.Config (ascii "username_template") with
  | .error err =>
    ⟨.err (Errorf (ascii "failed to retrieve username_template: ") err), minio, tr⟩
  | .ok usernameTemplate =>
    let usernameTemplate :=
      if usernameTemplate = [] then defaultUserNameTemplate else usernameTemplate
    match env.NewTemplate usernameTemplate with
    | .error err =>
      ⟨.err (Errorf (ascii "unable to initialize username template: ") err), minio, tr⟩
    | .ok up =>
      match env.Generate tr up {} with
      | .error err => ⟨.err (Errorf (ascii "invalid username template: ") err), minio, tr⟩
      | .ok _ =>
        match checkRequired req.Config requiredFields with
        | some err => ⟨.err err, minio, tr⟩
        | none =>
          let commit (tr : List Event) : Out InitializeResponse :=
            ⟨.ok { Config := req.Config },
             { config := req.Config, usernameProducer := up },
             tr ++ [.Lock, .writeProducer, .writeConfig, .Unlock]⟩
          if req.VerifyConnection then
            match BuildClient env req.Config with
            | .panicked => ⟨.panicked, minio, tr⟩
            | .err err => ⟨.err (Errorf (ascii "client test of login failed: ") err), minio, tr⟩
            | .ok client =>
              let tr1 := tr ++ [.remote client.Client .ServerInfo]
              match env.respond tr client.Client .ServerInfo with
              | some err =>
                ⟨.err (Errorf (ascii "client test of login failed: ") err), minio, tr1⟩
              | none => commit tr1
          else
            commit tr

/-- The function `newCreationStatement`. -/
def newCreationStatement (env : Env) (statements : Statements) :
    Except GoError CreationStatement :=
  if h0 : statements.Commands.length = 0 then
    .error ErrEmptyCreationStatement
  else if statements.Commands.length > 1 then
    .error (.new (ascii "only 1 creation statement supported for creation"))
  else
    have : 0 < statements.Commands.length := Nat.pos_of_ne_zero h0
    let command := statements.Commands[0]
    match env.Unmarshal command with
    | .error err => .error (Errorf (ascii "unable to unmarshal " ++ command ++ ascii ": ") err)
    | .ok stmt => .ok stmt

/-- The part of `NewUser` that runs before the read lock is taken (username
generation and statement parsing): either the early return, or the username and
statement the rest of the method works with, and the events issued so far. -/
def NewUser.unlocked (env : Env) (minio : Minio) (tr : List Event) (req : NewUserRequest) :
    Res NewUserResponse × List Event ⊕ GoString × CreationStatement × List Event :=
  let tr1 := tr ++ [.readProducer]
  match env.Generate tr1 minio.usernameProducer req.UsernameConfig with
  | .error err => .inl (.err err, tr1)
  | .ok username =>
    match newCreationStatement env req.Statements with
    | .error err => .inl (.err (Errorf (ascii "unable to read creation_statements: ") err), tr1)
    | .ok stmt => .inr (username, stmt, tr1)

/-- The part of `NewUser` from `RLock` to the return, where the deferred `RUnlock`
runs. -/
def NewUser.locked (env : Env) (minio : Minio) (tr : List Event) (req : NewUserRequest)
    (username : GoString) (stmt : CreationStatement) : Out NewUserResponse :=
  let tr1 := tr ++ [.RLock, .readConfig]
  match BuildClient env minio.config with
  | .panicked => ⟨.panicked, minio, tr1 ++ [.RUnlock]⟩
  | .err err =>
    ⟨.err (Errorf (ascii "can't create madmin client: ") err), minio, tr1 ++ [.RUnlock]⟩
  | .ok client =>
    match client.CreateUser env tr1 username req.Password stmt req.Expiration with
    | (some err, tr2) =>
      ⟨.err (Errorf (ascii "unable to create user " ++ username ++ ascii ", ") err), minio,
        tr2 ++ [.RUnlock]⟩
    | (none, tr2) => ⟨.ok { Username := username }, minio, tr2 ++ [.RUnlock]⟩

/-- The method `NewUser`, run without interference: both parts see the same receiver. -/
def NewUser (env : Env) (minio : Minio) (tr : List Event) (req : NewUserRequest) :
    Out NewUserResponse :=
  match NewUser.unlocked env minio tr req with
  | .inl (res, tr1) => ⟨res, minio, tr1⟩
  | .inr (username, stmt, tr1) => NewUser.locked env minio tr1 req username stmt

/-- The method `UpdateUser`. -/
def UpdateUser (env : Env) (minio : Minio) (tr : List Event) (req : UpdateUserRequest) :
    Out UpdateUserResponse :=
  let tr1 := tr ++ [.RLock, .readConfig]
  match BuildClient env minio.config with
  | .panicked => ⟨.panicked, minio, tr1 ++ [.RUnlock]⟩
  | .err err =>
    ⟨.err (Errorf (ascii "can't create madmin client: ") err), minio, tr1 ++ [.RUnlock]⟩
  | .ok client =>
    match req.Password with
    | some password =>
      match client.UpdateUser env tr1 req.Username password.NewPassword with
      | (some err, tr2) =>
        ⟨.err (Errorf (ascii "unable to change password for user " ++ req.Username
          ++ ascii ", ") err), minio, tr2 ++ [.RUnlock]⟩
      | (none, tr2) => ⟨.ok {}, minio, tr2 ++ [.RUnlock]⟩
    | none => ⟨.ok {}, minio, tr1 ++ [.RUnlock]⟩

/-- The method `DeleteUser`. -/
def DeleteUser (env : Env) (minio : Minio) (tr : List Event) (req : DeleteUserRequest) :
    Out DeleteUserResponse :=
  let tr1 := tr ++ [.RLock, .readConfig]
  match BuildClient env minio.config with
  | .panicked => ⟨.panicked, minio, tr1 ++ [.RUnlock]⟩
  | .err err =>
    ⟨.err (Errorf (ascii "can't create madmin client: ") err), minio, tr1 ++ [.RUnlock]⟩
  | .ok client =>
    match client.DeleteUser env tr1 req.Username with
    | (some err, tr2) =>
      ⟨.err (Errorf (ascii "unable to delete user " ++ req.Username ++ ascii ", ") err), minio,
        tr2 ++ [.RUnlock]⟩
    | (none, tr2) => ⟨.ok {}, minio, tr2 ++ [.RUnlock]⟩

/-- The method `Close`: it returns nil. -/
def Close (_minio : Minio) : Option GoError := none

/-- A `map[string]string`, as its entries with distinct keys. -/
abbrev Replacements := List (GoString × GoString)

/-- The assignment `m[k] = v` on a `map[string]string`. -/
def Replacements.set (m : Replacements) (k v : GoString) : Replacements :=
  (k, v) :: m.filter fun entry => entry.1 ≠ k

/-- The loop of `SecretValues` over the remaining secret keys. -/
def secretLoop (config : Config) : List GoString → Replacements → Replacements
  | [], replacements => replacements
  | secretKey :: rest, replacements =>
    match config.get secretKey with
    | none => secretLoop config rest replacements
    | some (.str secretVal) =>
      secretLoop config rest (replacements.set secretVal (ascii "[" ++ secretKey ++ ascii "]"))
    | some _ => secretLoop config rest replacements

/-- The slice ranged over by the loop of `SecretValues`. -/
def secretKeys : List GoString := [ascii "password"]

/-- The method `SecretValues`: the returned map, the receiver afterwards and the
events (one read of `config` for each secret key). -/
def SecretValues (minio : Minio) (tr : List Event) : Replacements × Minio × List Event :=
  (secretLoop minio.config secretKeys [], minio,
    tr ++ [.RLock] ++ secretKeys.map (fun _ => .readConfig) ++ [.RUnlock])

/-! ## The default username template

The constant `defaultUserNameTemplate` is a program of Go's `text/template` over
the functions the Vault template engine installs. Its denotation is written out
here: `x | truncate n` is the call `truncate(n, x)`, `printf` is `fmt.Sprintf`, and
the arguments are evaluated from left to right. -/

/-- The template function `truncate`: it fails for a non-positive bound and keeps
the first `maxLen` bytes of a longer string. Lengths are byte counts, as Go's `len`. -/
def truncate (maxLen : Int) (str : GoString) : Except GoError GoString :=
  if maxLen ≤ 0 then
    .error (.new (ascii "max length must be > 0"))  -- the source appends the bound
  else if (str.length : Int) > maxLen then
    .ok (str.take maxLen.toNat)
  else
    .ok str

/-- The call `fmt.Sprintf("v-%s-%s-%s-%s", a, b, c, d)` on four strings. -/
def sprintfDefault (a b c d : GoString) : GoString :=
  ascii "v-" ++ a ++ ascii "-" ++ b ++ ascii "-" ++ c ++ ascii "-" ++ d

/-- What executing `defaultUserNameTemplate` yields on the metadata `data`, given
the template function `random` and the string `unix_time` returns at that moment. -/
def renderDefault (random : Int → Except GoError GoString) (unix_time : GoString)
    (data : UsernameMetadata) : Except GoError GoString :=
  match truncate 15 data.DisplayName with
  | .error err => .error err
  | .ok displayName =>
    match truncate 15 data.RoleName with
    | .error err => .error err
    | .ok roleName =>
      match random 20 with
      | .error err => .error err
      | .ok token => truncate 100 (sprintfDefault displayName roleName token unix_time)

/-! ## A reference environment

The behaviour of the libraries on the inputs of the worked scenarios: the
documented behaviour of `strutil.GetString`; a template engine that knows the
default template and the template `{{.RoleName}}`; a JSON decoder that knows the
statement `{"policy":"readonly"}`; `madmin.New` refusing an empty endpoint; and a
remote side that accepts every call. -/

/-- The function `strutil.GetString`: an error for a nil map, the empty string for
an absent key, the string held by the key, an error for a value of another type. -/
def GetString (m : Config) (key : GoString) : Except GoError GoString :=
  match m with
  | none => .error (.new (ascii "missing map"))
  | some entries =>
    if key = [] then .error (.new (ascii "missing key"))
    else
      match lookup key entries with
      | none => .ok []
      | some (.str s) => .ok s
      | some _ => .error (.new (ascii "invalid value at " ++ key))

/-- The template `{{.RoleName}}`. -/
def roleNameTemplate : GoString := ascii "\x7b\x7b.RoleName\x7d\x7d"

/-- The statement `{"policy":"readonly"}`. -/
def readonlyStatement : GoString :=
  ascii "\x7b" ++ [dquote] ++ ascii "policy" ++ [dquote] ++ ascii ":" ++ [dquote]
    ++ ascii "readonly" ++ [dquote] ++ ascii "\x7d"

/-- The reference environment. -/
def refEnv : Env where
  GetString := GetString
  NewTemplate raw :=
    if raw = defaultUserNameTemplate ∨ raw = roleNameTemplate then .ok { rawTemplate := raw }
    else .error (.new (ascii "unable to parse template"))
  Generate _ up data :=
    if up.rawTemplate = defaultUserNameTemplate then
      renderDefault (fun n => .ok (List.replicate n.toNat 65)) (ascii "1700000000") data
    else if up.rawTemplate = roleNameTemplate then .ok data.RoleName
    else .error (.new (ascii "failed to generate: template not initialized"))
  Unmarshal command :=
    if command = readonlyStatement then .ok { Policy := ascii "readonly" }
    else .error (.new (ascii "invalid character"))
  madminNew endpoint _ _ _ :=
    if endpoint = [] then
      some (.new (ascii "Endpoint:  does not follow ip address or domain name standards."))
    else none
  respond _ _ _ := none

/-- A configuration with the four connection fields. -/
def connConfig (url useSSL : GoString) : Config :=
  some [(ascii "username", .str (ascii "admin")), (ascii "password", .str (ascii "s3cr3t")),
        (ascii "url", .str url), (ascii "useSSL", .str useSSL)]

/-- The configuration of the worked scenario without its `useSSL` key. -/
def configWithoutSSL : Config :=
  some [(ascii "username", .str (ascii "admin")), (ascii "password", .str (ascii "s3cr3t")),
        (ascii "url", .str (ascii "store.local:9000"))]

/-- The reference environment with a remote side that refuses to attach a policy. -/
def policyRefusedEnv : Env :=
  { refEnv with
    respond := fun _ _ call =>
      match call with
      | .SetPolicy _ _ _ => some (.new (ascii "policy does not exist"))
      | _ => none }

/-- The reference environment with a remote side that refuses every call. -/
def refusingEnv : Env :=
  { refEnv with respond := fun _ _ _ => some (.new (ascii "access denied")) }

/-- The manager after the configuration of the worked scenario was committed. -/
def scenarioMinio : Minio :=
  (Initialize refEnv New [] ⟨connConfig (ascii "store.local:9000") (ascii "true"), true⟩).minio

/-- The client `BuildClient` returns for the configuration of the worked scenario. -/
def scenarioClient : MinioClient :=
  { Client := { endpoint := ascii "store.local:9000", accessKeyID := ascii "admin",
                secretAccessKey := ascii "s3cr3t", secure := true },
    Config := { Username := ascii "admin", Password := ascii "s3cr3t",
                BaseURL := ascii "store.local:9000", UseSSL := true } }

/-- A later configuration: another endpoint and the template `{{.RoleName}}`. -/
def laterConfig : Config :=
  some [(ascii "username", .str (ascii "admin")), (ascii "password", .str (ascii "s3cr3t")),
        (ascii "url", .str (ascii "other.local:9000")), (ascii "useSSL", .str (ascii "true")),
        (ascii "username_template", .str roleNameTemplate)]

/-- The request of the worked scenario: display name `app1`, role name `svc`, the
statement `{"policy":"readonly"}`. -/
def scenarioRequest : NewUserRequest :=
  { UsernameConfig := { DisplayName := ascii "app1", RoleName := ascii "svc" },
    Statements := { Commands := [readonlyStatement] },
    Password := ascii "pw",
    Expiration := 0 }

/-! ## The error sanitizer

`New` hands `SecretValues` to the error-sanitizing middleware of the host, which
replaces in an error text every key of the returned map by its value. -/

/-- The scan of `strings.ReplaceAll` for a non-empty `old`: `skip` is the number of
bytes of the occurrence just replaced that are still to be passed over. -/
def replaceFrom (old new : GoString) : Nat → GoString → GoString
  | _, [] => []
  | skip + 1, _ :: s => replaceFrom old new skip s
  | 0, c :: s =>
    if old <+: c :: s then new ++ replaceFrom old new (old.length - 1) s
    else c :: replaceFrom old new 0 s

/-- The loop of the sanitizer over the map: an empty key is skipped, any other key
is replaced throughout the text by its value. -/
def sanitize (table : Replacements) (text : GoString) : GoString :=
  table.foldl (fun text entry =>
    if entry.1 = [] then text else replaceFrom entry.1 entry.2 0 text) text

/-! ## Lock discipline and interleaving -/

/-- The mode in which the running method holds `mux`. -/
inductive Held where
  | free
  | shared
  | exclusive
deriving DecidableEq, Repr

/-- The lock discipline on the events of one method run, checked from the mode
`held`: `config` and `usernameProducer` are read only while the lock is held
(shared or exclusive) and written only while it is held exclusively, a lock is
taken only when none is held and released only in the mode it was taken, and
nothing is held at the end. -/
def lockDiscipline : Held → List Event → Bool
  | held, [] => held = .free
  | held, .Lock :: rest => held = .free && lockDiscipline .exclusive rest
  | held, .Unlock :: rest => held = .exclusive && lockDiscipline .free rest
  | held, .RLock :: rest => held = .free && lockDiscipline .shared rest
  | held, .RUnlock :: rest => held = .shared && lockDiscipline .free rest
  | held, .readConfig :: rest => held ≠ .free && lockDiscipline held rest
  | held, .readProducer :: rest => held ≠ .free && lockDiscipline held rest
  | held, .writeConfig :: rest => held = .exclusive && lockDiscipline held rest
  | held, .writeProducer :: rest => held = .exclusive && lockDiscipline held rest
  | held, .remote _ _ :: rest => lockDiscipline held rest

/-- A run of `NewUser` during which another goroutine runs `Initialize` to
completion after `NewUser` has generated the username and parsed the statement and
before it takes the read lock. No lock is held at that point, so the write lock of
`Initialize` is granted. -/
def NewUser.interleaved (env : Env) (minio : Minio) (tr : List Event) (req : NewUserRequest)
    (other : InitializeRequest) : Out NewUserResponse :=
  match NewUser.unlocked env minio tr req with
  | .inl (res, tr1) => ⟨res, minio, tr1⟩
  | .inr (username, stmt, tr1) =>
    let committed := Initialize env minio tr1 other
    NewUser.locked env committed.minio committed.trace req username stmt

/-! ## Creation statements -/

/-- C4. `newCreationStatement` returns `ErrEmptyCreationStatement` on an empty
command list, the too-many-statements error on two commands or more whatever they
hold, and on exactly one command the wrapped decode error when the JSON decoder
rejects it and the decoded statement otherwise; it succeeds only on exactly one
command that the decoder accepts. -/
theorem newCreationStatement_cases (env : Env) (statements : Statements) :
    (statements.Commands.length = 0 →
      newCreationStatement env statements = .error ErrEmptyCreationStatement) ∧
    (2 ≤ statements.Commands.length →
      newCreationStatement env statements =
        .error (.new (ascii "only 1 creation statement supported for creation"))) ∧
    (∀ command, statements.Commands = [command] →
      (∀ err, env.Unmarshal command = .error err →
        newCreationStatement env statements =
          .error (Errorf (ascii "unable to unmarshal " ++ command ++ ascii ": ") err)) ∧
      (∀ stmt, env.Unmarshal command = .ok stmt →
        newCreationStatement env statements = .ok stmt)) ∧
    (∀ stmt, newCreationStatement env statements = .ok stmt →
      ∃ command, statements.Commands = [command] ∧ env.Unmarshal command = .ok stmt) := by
  obtain ⟨commands⟩ := statements
  refine ⟨?_, ?_, ?_, ?_⟩
  · intro h
    simp only [newCreationStatement, h, dite_true]
  · intro h
    have h0 : ¬ commands.length = 0 := by simp only at h; omega
    have h1 : commands.length > 1 := by simp only at h; omega
    simp only [newCreationStatement, h0, h1, dite_false, ite_true]
  · intro command hc
    simp only at hc
    subst hc
    constructor
    · intro err herr
      simp [newCreationStatement, herr]
    · intro stmt hstmt
      simp [newCreationStatement, hstmt]
  · intro stmt hok
    match commands, hok with
    | [], hok => simp [newCreationStatement] at hok
    | [command], hok =>
      refine ⟨command, rfl, ?_⟩
      cases hdec : env.Unmarshal command with
      | error err => simp [newCreationStatement, hdec] at hok
      | ok decoded =>
        simp [newCreationStatement, hdec] at hok
        rw [hok]
    | _ :: _ :: _, hok => simp [newCreationStatement] at hok

/-- C4 at the statement `{"policy":"readonly"}`: alone it parses to the policy
`readonly`; an empty list and a list of two are refused. -/
theorem newCreationStatement_cases_witness :
    newCreationStatement refEnv ⟨[readonlyStatement]⟩ = .ok ⟨ascii "readonly"⟩ ∧
    newCreationStatement refEnv ⟨[]⟩ = .error ErrEmptyCreationStatement ∧
    newCreationStatement refEnv ⟨[readonlyStatement, readonlyStatement]⟩ =
      .error (.new (ascii "only 1 creation statement supported for creation")) :=
  ⟨((newCreationStatement_cases refEnv ⟨[readonlyStatement]⟩).2.2.1 readonlyStatement rfl).2
      ⟨ascii "readonly"⟩ rfl,
   (newCreationStatement_cases refEnv ⟨[]⟩).1 (by decide),
   (newCreationStatement_cases refEnv ⟨[readonlyStatement, readonlyStatement]⟩).2.1 (by decide)⟩

/-! ## The client adapter -/

/-- C5. `MinioClient.CreateUser` calls `AddUser(username, password)` first. If that
fails it returns the create-step error and issues nothing else. If it succeeds it
calls `SetPolicy(stmt.Policy, username, false)` once; if that fails it returns one
error whose text holds the policy name and the username, and the events stop there:
no `RemoveUser` is issued. It returns nil exactly when both calls return nil. -/
theorem CreateUser_two_step (env : Env) (c : MinioClient) (tr : List Event)
    (username password : GoString) (stmt : CreationStatement) (expiration : Int) :
    let add := Event.remote c.Client (.AddUser username password)
    let attach := Event.remote c.Client (.SetPolicy stmt.Policy username false)
    let out := c.CreateUser env tr username password stmt expiration
    (∀ err, env.respond tr c.Client (.AddUser username password) = some err →
      out = (some (Errorf (ascii "can't create user: " ++ username ++ ascii ", ") err),
        tr ++ [add])) ∧
    (env.respond tr c.Client (.AddUser username password) = none →
      (∀ err, env.respond (tr ++ [add]) c.Client (.SetPolicy stmt.Policy username false)
          = some err →
        out = (some (Errorf (ascii "can't set policy " ++ stmt.Policy ++ ascii " for user: "
          ++ username ++ ascii ", ") err), tr ++ [add, attach]) ∧
        ∃ e, out.1 = some e ∧ stmt.Policy <:+: e.Error ∧ username <:+: e.Error) ∧
      (env.respond (tr ++ [add]) c.Client (.SetPolicy stmt.Policy username false) = none →
        out = (none, tr ++ [add, attach]))) ∧
    (out.2 = tr ++ [add] ∨ out.2 = tr ++ [add, attach]) ∧
    (∀ client name, Event.remote client (.RemoveUser name) ∉ out.2.drop tr.length) ∧
    (out.1 = none ↔
      env.respond tr c.Client (.AddUser username password) = none ∧
      env.respond (tr ++ [add]) c.Client (.SetPolicy stmt.Policy username false) = none) := by
  intro add attach out
  have hout : out = c.CreateUser env tr username password stmt expiration := rfl
  cases h1 : env.respond tr c.Client (.AddUser username password) with
  | some e1 =>
    have hval : out = (some (Errorf (ascii "can't create user: " ++ username ++ ascii ", ") e1),
        tr ++ [add]) := by
      rw [hout]; simp only [MinioClient.CreateUser, h1, add]
    refine ⟨?_, ?_, ?_, ?_, ?_⟩
    · intro err herr
      cases herr
      exact hval
    · intro h; cases h
    · left; rw [hval]
    · intro client name
      rw [hval]
      simp [add]
    · rw [hval]; simp
  | none =>
    cases h2 : env.respond (tr ++ [add]) c.Client (.SetPolicy stmt.Policy username false) with
    | some e2 =>
      have hval : out = (some (Errorf (ascii "can't set policy " ++ stmt.Policy
          ++ ascii " for user: " ++ username ++ ascii ", ") e2), tr ++ [add, attach]) := by
        rw [hout]; simp only [MinioClient.CreateUser, h1]
        simp only [add] at h2
        simp only [h2, add, attach, List.append_assoc, List.singleton_append]
      refine ⟨?_, ?_, ?_, ?_, ?_⟩
      · intro err herr; cases herr
      · intro _
        refine ⟨?_, ?_⟩
        · intro err herr
          cases herr
          refine ⟨hval, _, by rw [hval], ?_, ?_⟩
          · exact ⟨ascii "can't set policy ",
              ascii " for user: " ++ username ++ ascii ", " ++ e2.Error,
              by simp only [Errorf, GoError.Error, List.append_assoc]⟩
          · exact ⟨ascii "can't set policy " ++ stmt.Policy ++ ascii " for user: ",
              ascii ", " ++ e2.Error,
              by simp only [Errorf, GoError.Error, List.append_assoc]⟩
        · intro h; cases h
      · right; rw [hval]
      · intro client name
        rw [hval]
        simp [add, attach]
      · rw [hval]; simp
    | none =>
      have hval : out = (none, tr ++ [add, attach]) := by
        rw [hout]; simp only [MinioClient.CreateUser, h1]
        simp only [add] at h2
        simp only [h2, add, attach, List.append_assoc, List.singleton_append]
      refine ⟨?_, ?_, ?_, ?_, ?_⟩
      · intro err herr; cases herr
      · intro _
        refine ⟨?_, ?_⟩
        · intro err herr; cases herr
        · intro _; exact hval
      · right; rw [hval]
      · intro client name
        rw [hval]
        simp [add, attach]
      · rw [hval]; simp

/-- C5 against a remote side that refuses the policy: the account is created, the
policy step fails, the error names the policy and the user, and nothing follows the
two calls. -/
theorem CreateUser_two_step_witness :
    scenarioClient.CreateUser policyRefusedEnv [] (ascii "v-app1") (ascii "pw")
        ⟨ascii "readonly"⟩ 0 =
      (some (Errorf (ascii "can't set policy " ++ ascii "readonly" ++ ascii " for user: "
        ++ ascii "v-app1" ++ ascii ", ") (.new (ascii "policy does not exist"))),
       [] ++ [.remote scenarioClient.Client (.AddUser (ascii "v-app1") (ascii "pw")),
              .remote scenarioClient.Client (.SetPolicy (ascii "readonly") (ascii "v-app1") false)]) :=
  (((CreateUser_two_step policyRefusedEnv scenarioClient [] (ascii "v-app1") (ascii "pw")
    ⟨ascii "readonly"⟩ 0).2.1 rfl).1 (.new (ascii "policy does not exist")) rfl).1

/-! ## Initialize -/

theorem checkRequired_eq_none_iff (config : Config) (fields : List GoString) :
    checkRequired config fields = none ↔ ∀ k ∈ fields, ∃ s, config.get k = some (.str s) := by
  induction fields with
  | nil => simp [checkRequired]
  | cons field rest ih =>
    cases hget : config.get field with
    | none => simp [checkRequired, hget]
    | some v =>
      cases v <;> simp [checkRequired, hget, ih]

theorem BuildClient_of_checked (env : Env) (config : Config)
    (h : checkRequired config requiredFields = none) :
    ∃ username password url flag,
      config.get (ascii "username") = some (.str username) ∧
      config.get (ascii "password") = some (.str password) ∧
      config.get (ascii "url") = some (.str url) ∧
      config.get (ascii "useSSL") = some (.str flag) ∧
      BuildClient env config =
        match env.madminNew url username password ((ParseBool flag).getD false) with
        | some err => .err err
        | none =>
          .ok { Client := { endpoint := url, accessKeyID := username,
                            secretAccessKey := password,
                            secure := (ParseBool flag).getD false },
                Config := { Username := username, Password := password, BaseURL := url,
                            UseSSL := (ParseBool flag).getD false } } := by
  rw [checkRequired_eq_none_iff] at h
  obtain ⟨username, hu⟩ := h (ascii "username") (by simp [requiredFields])
  obtain ⟨password, hp⟩ := h (ascii "password") (by simp [requiredFields])
  obtain ⟨url, hurl⟩ := h (ascii "url") (by simp [requiredFields])
  obtain ⟨flag, hf⟩ := h (ascii "useSSL") (by simp [requiredFields])
  refine ⟨username, password, url, flag, hu, hp, hurl, hf, ?_⟩
  simp only [BuildClient, hu, hp, hurl, hf, assertString]

theorem BuildClient_ne_panicked_of_checked (env : Env) (config : Config)
    (h : checkRequired config requiredFields = none) : BuildClient env config ≠ .panicked := by
  obtain ⟨username, password, url, flag, -, -, -, -, hb⟩ := BuildClient_of_checked env config h
  rw [hb]
  split <;> simp

/-- C1. `Initialize` is all-or-nothing on the pair (`config`, `usernameProducer`):
whenever it returns an error the receiver is what it was before the call; whenever
it succeeds the stored configuration is `req.Config`, the stored generator is the
one compiled from the request's template (the default template when
`username_template` resolves to the empty string), and the response holds
`req.Config`. It never panics, and it succeeds exactly when the template is
retrieved, compiles and generates on empty metadata, the four required fields are
strings and, if verification is requested, the client is built and `ServerInfo`
returns nil; in every other case it returns an error. -/
theorem Initialize_all_or_nothing (env : Env) (minio : Minio) (tr : List Event)
    (req : InitializeRequest) :
    (∀ e, (Initialize env minio tr req).res = .err e →
      (Initialize env minio tr req).minio = minio) ∧
    (∀ resp, (Initialize env minio tr req).res = .ok resp →
      resp.Config = req.Config ∧
      (Initialize env minio tr req).minio.config = req.Config ∧
      ∃ t up, env.GetString req.Config (ascii "username_template") = .ok t ∧
        env.NewTemplate (if t = [] then defaultUserNameTemplate else t) = .ok up ∧
        (Initialize env minio tr req).minio.usernameProducer = up) ∧
    (Initialize env minio tr req).res ≠ .panicked ∧
    ((∃ resp, (Initialize env minio tr req).res = .ok resp) ↔
      ∃ t up sample, env.GetString req.Config (ascii "username_template") = .ok t ∧
        env.NewTemplate (if t = [] then defaultUserNameTemplate else t) = .ok up ∧
        env.Generate tr up {} = .ok sample ∧
        checkRequired req.Config requiredFields = none ∧
        (req.VerifyConnection = true → ∃ client, BuildClient env req.Config = .ok client ∧
          env.respond tr client.Client .ServerInfo = none)) := by
  unfold Initialize
  cases hget : env.GetString req.Config (ascii "username_template") with
  | error err => simp
  | ok t =>
    cases hnew : env.NewTemplate (if t = [] then defaultUserNameTemplate else t) with
    | error err => simp [hnew]
    | ok up =>
      cases hgen : env.Generate tr up {} with
      | error err => simp [hnew, hgen]
      | ok sample =>
        cases hreq : checkRequired req.Config requiredFields with
        | some err => simp [hnew, hgen, hreq]
        | none =>
          cases hv : req.VerifyConnection with
          | false => simp [hnew, hgen, hreq, hv]
          | true =>
            have hnp := BuildClient_ne_panicked_of_checked env req.Config hreq
            cases hb : BuildClient env req.Config with
            | panicked => exact absurd hb hnp
            | err e => simp [hnew, hgen, hreq, hv, hb]
            | ok client =>
              cases hs : env.respond tr client.Client .ServerInfo with
              | some e => simp [hnew, hgen, hreq, hv, hb, hs]
              | none => simp [hnew, hgen, hreq, hv, hb, hs]

/-- C1 on the worked scenario: the configuration is committed when the remote side
answers the probe, and a manager that holds it keeps it, generator included, when
a later configuration fails the probe. -/
theorem Initialize_all_or_nothing_witness :
    (Initialize refEnv New [] ⟨connConfig (ascii "store.local:9000") (ascii "true"), true⟩).minio
      = ⟨connConfig (ascii "store.local:9000") (ascii "true"), ⟨defaultUserNameTemplate⟩⟩ ∧
    (Initialize refusingEnv scenarioMinio [] ⟨laterConfig, true⟩).minio = scenarioMinio :=
  ⟨by decide,
   (Initialize_all_or_nothing refusingEnv scenarioMinio [] ⟨laterConfig, true⟩).1
     (Errorf (ascii "client test of login failed: ") (.new (ascii "access denied")))
     (by decide)⟩

theorem checkRequired_first_offender (config : Config) (before after : List GoString)
    (key : GoString) (hbefore : ∀ k ∈ before, ∃ s, config.get k = some (.str s))
    (hbad : ∀ s, config.get key ≠ some (.str s)) :
    checkRequired config (before ++ key :: after) =
      some (.new (fmtQ key ++
        if config.get key = none then ascii " must be provided" else ascii " must be a string")) := by
  induction before with
  | nil =>
    cases hget : config.get key with
    | none => simp [checkRequired, hget]
    | some v =>
      cases v with
      | str s => exact absurd hget (hbad s)
      | bool b => simp [checkRequired, hget]
      | number n => simp [checkRequired, hget]
      | null => simp [checkRequired, hget]
  | cons field rest ih =>
    obtain ⟨s, hs⟩ := hbefore field (List.mem_cons_self _ _)
    have ih' := ih (fun k hk => hbefore k (List.mem_cons_of_mem _ hk))
    simp only [List.cons_append, checkRequired, hs]
    exact ih'

/-- C2. When the template steps of `Initialize` pass (the template is absent or
usable: `GetString` returns, the template compiles and the probe generation
succeeds), and `key` is the first of username, password, url, useSSL, in that
order, that is missing from the configuration or holds a value that is not a
string, `Initialize` fails with an error whose text is the double quote byte (34),
the key, the double quote byte, and then ` must be provided` when the key is
missing and ` must be a string` otherwise; the quoted key is part of the text, and
the receiver is unchanged. -/
theorem Initialize_reports_first_offending_key (env : Env) (minio : Minio) (tr : List Event)
    (req : InitializeRequest) (t sample : GoString) (up : StringTemplate)
    (before after : List GoString) (key : GoString)
    (hget : env.GetString req.Config (ascii "username_template") = .ok t)
    (hnew : env.NewTemplate (if t = [] then defaultUserNameTemplate else t) = .ok up)
    (hgen : env.Generate tr up {} = .ok sample)
    (hsplit : requiredFields = before ++ key :: after)
    (hbefore : ∀ k ∈ before, ∃ s, req.Config.get k = some (.str s))
    (hbad : ∀ s, req.Config.get key ≠ some (.str s)) :
    ∃ e, (Initialize env minio tr req).res = .err e ∧
      e.Error = [(34 : UInt8)] ++ key ++ [(34 : UInt8)] ++
        (if req.Config.get key = none then ascii " must be provided"
         else ascii " must be a string") ∧
      [(34 : UInt8)] ++ key ++ [(34 : UInt8)] <:+: e.Error ∧
      (Initialize env minio tr req).minio = minio := by
  have hchk := checkRequired_first_offender req.Config before after key hbefore hbad
  rw [← hsplit] at hchk
  refine ⟨.new (fmtQ key ++ (if req.Config.get key = none then ascii " must be provided"
    else ascii " must be a string")), ?_, rfl, ?_, ?_⟩
  · simp only [Initialize, hget, hnew, hgen, hchk]
  · exact List.infix_append' [] ([(34 : UInt8)] ++ key ++ [(34 : UInt8)]) _
  · simp only [Initialize, hget, hnew, hgen, hchk]

/-- C2 at a configuration that lacks only `useSSL`: the error text is, byte for
byte, `"useSSL" must be provided`, quotes included. -/
theorem Initialize_reports_first_offending_key_witness :
    ∃ e, (Initialize refEnv New [] ⟨configWithoutSSL, false⟩).res = .err e ∧
      e.Error = [34, 117, 115, 101, 83, 83, 76, 34, 32, 109, 117, 115, 116, 32, 98, 101, 32, 112, 114, 111, 118, 105, 100, 101, 100] ∧
      [(34 : UInt8), 117, 115, 101, 83, 83, 76, 34] <:+: e.Error ∧
      (Initialize refEnv New [] ⟨configWithoutSSL, false⟩).minio = New :=
  match Initialize_reports_first_offending_key refEnv New [] ⟨configWithoutSSL, false⟩
    [] (ascii "v---AAAAAAAAAAAAAAAAAAAA-1700000000") ⟨defaultUserNameTemplate⟩
    [ascii "username", ascii "password", ascii "url"] [] (ascii "useSSL")
    rfl rfl rfl rfl
    (by
      intro k hk
      simp only [List.mem_cons, List.mem_singleton, List.not_mem_nil, or_false] at hk
      rcases hk with rfl | rfl | rfl
      · exact ⟨ascii "admin", rfl⟩
      · exact ⟨ascii "s3cr3t", rfl⟩
      · exact ⟨ascii "store.local:9000", rfl⟩)
    (by
      intro s h
      have h0 : Config.get configWithoutSSL (ascii "useSSL") = none := rfl
      rw [show (InitializeRequest.mk configWithoutSSL false).Config = configWithoutSSL from rfl,
        h0] at h
      cases h) with
  | ⟨e, hres, htext, hquoted, hsame⟩ => ⟨e, hres, htext.trans (by decide), hquoted, hsame⟩

theorem Initialize_ok_checked (env : Env) (minio : Minio) (tr : List Event)
    (req : InitializeRequest) (resp : InitializeResponse)
    (h : (Initialize env minio tr req).res = .ok resp) :
    checkRequired req.Config requiredFields = none ∧
    (Initialize env minio tr req).minio.config = req.Config := by
  revert h
  unfold Initialize
  cases env.GetString req.Config (ascii "username_template") with
  | error err => simp
  | ok t =>
    cases hnew : env.NewTemplate (if t = [] then defaultUserNameTemplate else t) with
    | error err => simp [hnew]
    | ok up =>
      cases hgen : env.Generate tr up {} with
      | error err => simp [hnew, hgen]
      | ok sample =>
        cases hreq : checkRequired req.Config requiredFields with
        | some err => simp [hnew, hgen, hreq]
        | none =>
          cases hv : req.VerifyConnection with
          | false => simp [hnew, hgen, hreq, hv]
          | true =>
            cases hb : BuildClient env req.Config with
            | panicked => simp [hnew, hgen, hreq, hv, hb]
            | err e => simp [hnew, hgen, hreq, hv, hb]
            | ok client =>
              cases hs : env.respond tr client.Client .ServerInfo with
              | some e => simp [hnew, hgen, hreq, hv, hb, hs]
              | none => simp [hnew, hgen, hreq, hv, hb, hs]

/-- C3, as stated, fails: a configuration whose `useSSL` is the string `maybe`, which
`ParseBool` rejects, is accepted and committed by `Initialize`, with and without
`VerifyConnection`. -/
theorem Initialize_accepts_unparsable_useSSL :
    ParseBool (ascii "maybe") = none ∧
    (Initialize refEnv New []
      ⟨connConfig (ascii "store.local:9000") (ascii "maybe"), false⟩).res =
      .ok ⟨connConfig (ascii "store.local:9000") (ascii "maybe")⟩ ∧
    (Initialize refEnv New []
      ⟨connConfig (ascii "store.local:9000") (ascii "maybe"), false⟩).minio.config =
      connConfig (ascii "store.local:9000") (ascii "maybe") ∧
    (Initialize refEnv New []
      ⟨connConfig (ascii "store.local:9000") (ascii "maybe"), true⟩).minio.config =
      connConfig (ascii "store.local:9000") (ascii "maybe") := by
  refine ⟨by decide, by decide, by decide, by decide⟩

/-- C3, amended. After a successful `Initialize` the stored configuration holds a
string under `useSSL` (and under the three other connection keys); that the string
parses as a boolean is not checked. `BuildClient` on the stored configuration does
not panic, and a client it returns has `UseSSL` equal to the parsed flag, `false`
when the string does not parse. -/
theorem Initialize_commits_string_useSSL (env : Env) (minio : Minio) (tr : List Event)
    (req : InitializeRequest) (resp : InitializeResponse)
    (h : (Initialize env minio tr req).res = .ok resp) :
    (∀ k ∈ requiredFields, ∃ s, (Initialize env minio tr req).minio.config.get k = some (.str s)) ∧
    BuildClient env (Initialize env minio tr req).minio.config ≠ .panicked ∧
    ∃ flag, (Initialize env minio tr req).minio.config.get (ascii "useSSL") = some (.str flag) ∧
      ∀ client, BuildClient env (Initialize env minio tr req).minio.config = .ok client →
        client.Config.UseSSL = (ParseBool flag).getD false ∧
        (ParseBool flag = none → client.Config.UseSSL = false) := by
  obtain ⟨hchk, hcfg⟩ := Initialize_ok_checked env minio tr req resp h
  rw [hcfg]
  refine ⟨(checkRequired_eq_none_iff _ _).1 hchk,
    BuildClient_ne_panicked_of_checked env req.Config hchk, ?_⟩
  obtain ⟨username, password, url, flag, -, -, -, hf, hb⟩ :=
    BuildClient_of_checked env req.Config hchk
  refine ⟨flag, hf, ?_⟩
  intro client hclient
  rw [hb] at hclient
  cases hm : env.madminNew url username password ((ParseBool flag).getD false) with
  | some err => simp [hm] at hclient
  | none =>
    simp only [hm, Res.ok.injEq] at hclient
    subst hclient
    refine ⟨rfl, ?_⟩
    intro hnone
    simp [hnone]

/-- C3, amended, at the configuration whose `useSSL` is `maybe`. -/
theorem Initialize_commits_string_useSSL_witness :
    (∀ k ∈ requiredFields, ∃ s, (Initialize refEnv New []
      ⟨connConfig (ascii "store.local:9000") (ascii "maybe"), false⟩).minio.config.get k
        = some (.str s)) ∧
    BuildClient refEnv (Initialize refEnv New []
      ⟨connConfig (ascii "store.local:9000") (ascii "maybe"), false⟩).minio.config ≠ .panicked ∧
    ∃ flag, (Initialize refEnv New []
        ⟨connConfig (ascii "store.local:9000") (ascii "maybe"), false⟩).minio.config.get
          (ascii "useSSL") = some (.str flag) ∧
      ∀ client, BuildClient refEnv (Initialize refEnv New []
          ⟨connConfig (ascii "store.local:9000") (ascii "maybe"), false⟩).minio.config
            = .ok client →
        client.Config.UseSSL = (ParseBool flag).getD false ∧
        (ParseBool flag = none → client.Config.UseSSL = false) :=
  Initialize_commits_string_useSSL refEnv New []
    ⟨connConfig (ascii "store.local:9000") (ascii "maybe"), false⟩
    ⟨connConfig (ascii "store.local:9000") (ascii "maybe")⟩ (by decide)

/-! ## UpdateUser -/

/-- C8, as stated, fails: with no new password supplied, `UpdateUser` panics on the
manager `New` returns (no configuration), and returns the client construction
error on a configuration that `Initialize` accepted without verification and that
`madmin.New` refuses. -/
theorem UpdateUser_without_password_can_fail :
    (UpdateUser refEnv New [] ⟨ascii "v-app1", none⟩).res = .panicked ∧
    (Initialize refEnv New [] ⟨connConfig [] (ascii "true"), false⟩).res =
      .ok ⟨connConfig [] (ascii "true")⟩ ∧
    (UpdateUser refEnv (Initialize refEnv New [] ⟨connConfig [] (ascii "true"), false⟩).minio []
      ⟨ascii "v-app1", none⟩).res =
      .err (Errorf (ascii "can't create madmin client: ")
        (.new (ascii "Endpoint:  does not follow ip address or domain name standards."))) := by
  refine ⟨by decide, by decide, by decide⟩

/-- C8, amended. When `BuildClient` returns a client for the stored configuration:
with no new password `UpdateUser` returns success and issues no remote call; with a
new password it issues exactly one `SetUser(username, newPassword, AccountEnabled)`
through that client and succeeds exactly when that call returns nil. When
`BuildClient` does not return a client, `UpdateUser` does not succeed and issues no
remote call, whether or not a password is supplied. The receiver is unchanged. -/
theorem UpdateUser_after_client_built (env : Env) (minio : Minio) (tr : List Event)
    (req : UpdateUserRequest) :
    (∀ client, BuildClient env minio.config = .ok client →
      (req.Password = none →
        (UpdateUser env minio tr req).res = .ok {} ∧
        (UpdateUser env minio tr req).trace = tr ++ [.RLock, .readConfig, .RUnlock]) ∧
      (∀ password, req.Password = some password →
        (UpdateUser env minio tr req).trace = tr ++ [.RLock, .readConfig,
          .remote client.Client (.SetUser req.Username password.NewPassword .AccountEnabled),
          .RUnlock] ∧
        ((UpdateUser env minio tr req).res = .ok {} ↔
          env.respond (tr ++ [.RLock, .readConfig]) client.Client
            (.SetUser req.Username password.NewPassword .AccountEnabled) = none))) ∧
    ((∀ client, BuildClient env minio.config ≠ .ok client) →
      (UpdateUser env minio tr req).res ≠ .ok {} ∧
      (UpdateUser env minio tr req).trace = tr ++ [.RLock, .readConfig, .RUnlock]) ∧
    (UpdateUser env minio tr req).minio = minio := by
  refine ⟨?_, ?_, ?_⟩
  · intro client hb
    refine ⟨?_, ?_⟩
    · intro hpw
      simp [UpdateUser, hb, hpw]
    · intro password hpw
      cases hr : env.respond (tr ++ [.RLock, .readConfig]) client.Client
          (.SetUser req.Username password.NewPassword .AccountEnabled) with
      | some e => simp [UpdateUser, hb, hpw, MinioClient.UpdateUser, hr]
      | none => simp [UpdateUser, hb, hpw, MinioClient.UpdateUser, hr]
  · intro hb
    cases hc : BuildClient env minio.config with
    | ok client => exact absurd hc (hb client)
    | err e => simp [UpdateUser, hc]
    | panicked => simp [UpdateUser, hc]
  · cases hc : BuildClient env minio.config with
    | ok client =>
      cases hpw : req.Password with
      | none => simp [UpdateUser, hc, hpw]
      | some password =>
        cases hr : env.respond (tr ++ [.RLock, .readConfig]) client.Client
            (.SetUser req.Username password.NewPassword .AccountEnabled) with
        | some e => simp [UpdateUser, hc, hpw, MinioClient.UpdateUser, hr]
        | none => simp [UpdateUser, hc, hpw, MinioClient.UpdateUser, hr]
    | err e => simp [UpdateUser, hc]
    | panicked => simp [UpdateUser, hc]

/-- C8, amended, on the manager of the worked scenario: without a new password
the call succeeds with no remote call; with one, exactly one `SetUser` is issued. -/
theorem UpdateUser_after_client_built_witness :
    ((UpdateUser refEnv scenarioMinio [] ⟨ascii "v-app1", none⟩).res = .ok {} ∧
      (UpdateUser refEnv scenarioMinio [] ⟨ascii "v-app1", none⟩).trace =
        [] ++ [.RLock, .readConfig, .RUnlock]) ∧
    (UpdateUser refEnv New [] ⟨ascii "v-app1", none⟩).res ≠ .ok {} :=
  ⟨((UpdateUser_after_client_built refEnv scenarioMinio [] ⟨ascii "v-app1", none⟩).1
      ⟨⟨ascii "store.local:9000", ascii "admin", ascii "s3cr3t", true⟩,
       ⟨ascii "admin", ascii "s3cr3t", ascii "store.local:9000", true⟩⟩ (by decide)).1 rfl,
   ((UpdateUser_after_client_built refEnv New [] ⟨ascii "v-app1", none⟩).2.1
      (by
        intro client h
        have h0 : BuildClient refEnv New.config = .panicked := rfl
        rw [h0] at h
        cases h)).1⟩

/-! ## The default username template -/

theorem truncate_of_pos (maxLen : Nat) (h : 0 < maxLen) (str : GoString) :
    truncate maxLen str = .ok (str.take maxLen) := by
  unfold truncate
  have h1 : ¬ ((maxLen : Int) ≤ 0) := by omega
  simp only [h1, if_false, Int.toNat_ofNat]
  by_cases hlen : (str.length : Int) > maxLen
  · simp only [hlen, if_true]
  · have hle : str.length ≤ maxLen := by omega
    simp only [hlen, if_false, List.take_of_length_le hle]

/-- C9. Whenever the template function `random` returns a token, the default
template yields, for every metadata, the string `v-<d>-<r>-<token>-<unix time>` cut
to its first 100 bytes, where `<d>` is the first 15 bytes of the display name and
`<r>` the first 15 bytes of the role name. The result is at most 100 bytes long and
starts with `v-`; both name segments are at most 15 bytes long; and when the token
has the 20 bytes `random 20` asks for and the time has at most 45 digits, nothing
is cut at the end. -/
theorem renderDefault_form (random : Int → Except GoError GoString) (unix_time : GoString)
    (data : UsernameMetadata) (token : GoString) (hrandom : random 20 = .ok token) :
    ∃ username, renderDefault random unix_time data = .ok username ∧
      username = (ascii "v-" ++ data.DisplayName.take 15 ++ ascii "-" ++ data.RoleName.take 15
        ++ ascii "-" ++ token ++ ascii "-" ++ unix_time).take 100 ∧
      username.length ≤ 100 ∧
      ascii "v-" <+: username ∧
      (data.DisplayName.take 15).length ≤ 15 ∧
      (data.RoleName.take 15).length ≤ 15 ∧
      (token.length = 20 → unix_time.length ≤ 45 →
        username = ascii "v-" ++ data.DisplayName.take 15 ++ ascii "-" ++ data.RoleName.take 15
          ++ ascii "-" ++ token ++ ascii "-" ++ unix_time) := by
  have h15 : ∀ str : GoString, truncate 15 str = .ok (str.take 15) :=
    fun str => truncate_of_pos 15 (by decide) str
  have h100 : ∀ str : GoString, truncate 100 str = .ok (str.take 100) :=
    fun str => truncate_of_pos 100 (by decide) str
  have hv : (ascii "v-").length = 2 := rfl
  have hdash : (ascii "-").length = 1 := rfl
  refine ⟨_, ?_, rfl, ?_, ?_, ?_, ?_, ?_⟩
  · simp only [renderDefault, h15, hrandom, h100, sprintfDefault]
  · exact List.length_take_le _ _
  · have hsplit : (ascii "v-" ++ data.DisplayName.take 15 ++ ascii "-" ++ data.RoleName.take 15
        ++ ascii "-" ++ token ++ ascii "-" ++ unix_time).take 100
        = ascii "v-" ++ (data.DisplayName.take 15 ++ ascii "-" ++ data.RoleName.take 15
        ++ ascii "-" ++ token ++ ascii "-" ++ unix_time).take 98 := by
      simp only [List.append_assoc]
      rw [List.take_append_eq_append_take, hv]
      rw [List.take_of_length_le (by rw [hv]; decide)]
    rw [hsplit]
    exact List.prefix_append _ _
  · exact List.length_take_le _ _
  · exact List.length_take_le _ _
  · intro htoken htime
    apply List.take_of_length_le
    have hd := List.length_take_le 15 data.DisplayName
    have hr := List.length_take_le 15 data.RoleName
    simp only [List.length_append, hv, hdash, htoken]
    omega

/-- C9 for the metadata of the worked scenario, with the token `AAAAAAAAAAAAAAAAAAAA`
and the time `1700000000`. -/
theorem renderDefault_form_witness :
    ∃ username,
      renderDefault (fun n => .ok (List.replicate n.toNat 65)) (ascii "1700000000")
        ⟨ascii "app1", ascii "svc"⟩ = .ok username ∧
      username = (ascii "v-" ++ (ascii "app1").take 15 ++ ascii "-" ++ (ascii "svc").take 15
        ++ ascii "-" ++ List.replicate 20 65 ++ ascii "-" ++ ascii "1700000000").take 100 ∧
      username.length ≤ 100 ∧
      ascii "v-" <+: username ∧
      ((ascii "app1").take 15).length ≤ 15 ∧
      ((ascii "svc").take 15).length ≤ 15 ∧
      ((List.replicate 20 (65 : UInt8)).length = 20 → (ascii "1700000000").length ≤ 45 →
        username = ascii "v-" ++ (ascii "app1").take 15 ++ ascii "-" ++ (ascii "svc").take 15
          ++ ascii "-" ++ List.replicate 20 65 ++ ascii "-" ++ ascii "1700000000") :=
  renderDefault_form (fun n => .ok (List.replicate n.toNat 65)) (ascii "1700000000")
    ⟨ascii "app1", ascii "svc"⟩ (List.replicate 20 65) rfl

/-! ## SecretValues -/

theorem replaceFrom_skip (old new : GoString) (x y : GoString) :
    replaceFrom old new x.length (x ++ y) = replaceFrom old new 0 y := by
  induction x with
  | nil => rfl
  | cons c x ih => simpa [replaceFrom] using ih

theorem replaceFrom_first (old new : GoString) (hold : old ≠ []) (a b : GoString)
    (hfirst : ∀ i < a.length, ¬ old <+: (a ++ old ++ b).drop i) :
    replaceFrom old new 0 (a ++ old ++ b) = a ++ new ++ replaceFrom old new 0 b := by
  induction a with
  | nil =>
    cases old with
    | nil => exact absurd rfl hold
    | cons c rest =>
      have hpre : (c :: rest) <+: c :: (rest ++ b) := List.prefix_append (c :: rest) b
      have hskip := replaceFrom_skip (c :: rest) new rest b
      show replaceFrom (c :: rest) new 0 (c :: (rest ++ b))
        = new ++ replaceFrom (c :: rest) new 0 b
      rw [replaceFrom, if_pos hpre]
      show new ++ replaceFrom (c :: rest) new rest.length (rest ++ b) = _
      rw [hskip]
  | cons x a ih =>
    have h0 : ¬ old <+: x :: (a ++ old ++ b) := by
      have := hfirst 0 (by simp)
      simpa using this
    have hrest : ∀ i < a.length, ¬ old <+: (a ++ old ++ b).drop i := by
      intro i hi
      have := hfirst (i + 1) (by simp only [List.length_cons]; omega)
      simpa using this
    show replaceFrom old new 0 (x :: (a ++ old ++ b)) = x :: (a ++ new ++ replaceFrom old new 0 b)
    rw [replaceFrom, if_neg h0, ih hrest]

/-- C6. When the stored configuration holds a string `p` under `password`,
`SecretValues` returns the map with the single entry `p ↦ [password]`; the
placeholder is not empty and holds the text `password`. When the key is missing or
holds a value that is not a string the map is empty. The receiver is returned
unchanged. For a non-empty `p`, the sanitizer applied with this map to a text
`a ++ p ++ b` in which no occurrence of `p` starts inside `a` yields
`a ++ [password]` followed by the sanitized `b`: scanning from the left, each
occurrence of `p` is rewritten. -/
theorem SecretValues_table (minio : Minio) (tr : List Event) :
    (∀ p, minio.config.get (ascii "password") = some (.str p) →
      (SecretValues minio tr).1 = [(p, ascii "[password]")] ∧
      (SecretValues minio tr).1.length = 1 ∧
      (p ≠ [] → ∀ a b : GoString, (∀ i < a.length, ¬ p <+: (a ++ p ++ b).drop i) →
        sanitize (SecretValues minio tr).1 (a ++ p ++ b) =
          a ++ ascii "[password]" ++ sanitize (SecretValues minio tr).1 b)) ∧
    ((∀ p, minio.config.get (ascii "password") ≠ some (.str p)) →
      (SecretValues minio tr).1 = []) ∧
    (SecretValues minio tr).2.1 = minio ∧
    ascii "[password]" ≠ [] ∧
    ascii "password" <:+: ascii "[password]" := by
  have hph : ascii "[" ++ ascii "password" ++ ascii "]" = ascii "[password]" := by decide
  refine ⟨?_, ?_, rfl, by decide, ⟨ascii "[", ascii "]", by decide⟩⟩
  · intro p hp
    have htable : (SecretValues minio tr).1 = [(p, ascii "[password]")] := by
      simp [SecretValues, secretKeys, secretLoop, hp, Replacements.set, hph]
    refine ⟨htable, by rw [htable]; rfl, ?_⟩
    intro hne a b hfirst
    rw [htable]
    simp only [sanitize, List.foldl_cons, List.foldl_nil, hne, if_false]
    exact replaceFrom_first p (ascii "[password]") hne a b hfirst
  · intro hp
    cases hget : minio.config.get (ascii "password") with
    | none => simp [SecretValues, secretKeys, secretLoop, hget]
    | some v =>
      cases v with
      | str s => exact absurd hget (hp s)
      | bool b => simp [SecretValues, secretKeys, secretLoop, hget]
      | number n => simp [SecretValues, secretKeys, secretLoop, hget]
      | null => simp [SecretValues, secretKeys, secretLoop, hget]

/-- C6 on the manager of the worked scenario: the map is `s3cr3t ↦ [password]`, and
the text `login s3cr3t failed` is sanitized to `login [password] failed`. -/
theorem SecretValues_table_witness :
    (SecretValues scenarioMinio []).1 = [(ascii "s3cr3t", ascii "[password]")] ∧
    sanitize (SecretValues scenarioMinio []).1 (ascii "login " ++ ascii "s3cr3t" ++ ascii " failed")
      = ascii "login " ++ ascii "[password]"
        ++ sanitize (SecretValues scenarioMinio []).1 (ascii " failed") :=
  ⟨((SecretValues_table scenarioMinio []).1 (ascii "s3cr3t") (by decide)).1,
   ((SecretValues_table scenarioMinio []).1 (ascii "s3cr3t") (by decide)).2.2 (by decide)
      (ascii "login ") (ascii " failed") (by decide)⟩

/-! ## Error texts and the password -/

theorem BuildClient_respond (env : Env)
    (respond' : List Event → AdminClient → Call → Option GoError) (config : Config) :
    BuildClient { env with respond := respond' } config = BuildClient env config := rfl

theorem newCreationStatement_respond (env : Env)
    (respond' : List Event → AdminClient → Call → Option GoError) (statements : Statements) :
    newCreationStatement { env with respond := respond' } statements
      = newCreationStatement env statements := rfl

theorem CreateUser_error_shape (env : Env) (c : MinioClient) (tr : List Event)
    (username password : GoString) (stmt : CreationStatement) (expiration : Int) (e : GoError)
    (h : (c.CreateUser env tr username password stmt expiration).1 = some e) :
    ∃ remoteErr,
      e = Errorf (ascii "can't create user: " ++ username ++ ascii ", ") remoteErr ∨
      e = Errorf (ascii "can't set policy " ++ stmt.Policy ++ ascii " for user: " ++ username
        ++ ascii ", ") remoteErr := by
  unfold MinioClient.CreateUser at h
  cases h1 : env.respond tr c.Client (.AddUser username password) with
  | some e1 =>
    simp only [h1, Option.some.injEq] at h
    exact ⟨e1, Or.inl h.symm⟩
  | none =>
    simp only [h1] at h
    cases h2 : env.respond (tr ++ [.remote c.Client (.AddUser username password)]) c.Client
        (.SetPolicy stmt.Policy username false) with
    | some e2 =>
      simp only [h2, Option.some.injEq] at h
      exact ⟨e2, Or.inr h.symm⟩
    | none => simp [h2] at h

theorem UpdateUser_error_shape (env : Env) (c : MinioClient) (tr : List Event)
    (username password : GoString) (e : GoError)
    (h : (c.UpdateUser env tr username password).1 = some e) :
    ∃ remoteErr,
      e = Errorf (ascii "can't change password for user: " ++ username ++ ascii ", ") remoteErr := by
  unfold MinioClient.UpdateUser at h
  cases h1 : env.respond tr c.Client (.SetUser username password .AccountEnabled) with
  | some e1 =>
    simp only [h1, Option.some.injEq] at h
    exact ⟨e1, h.symm⟩
  | none => simp [h1] at h

theorem DeleteUser_error_shape (env : Env) (c : MinioClient) (tr : List Event)
    (username : GoString) (e : GoError) (h : (c.DeleteUser env tr username).1 = some e) :
    ∃ remoteErr,
      e = Errorf (ascii "can't delete user: " ++ username ++ ascii ", ") remoteErr := by
  unfold MinioClient.DeleteUser at h
  cases h1 : env.respond tr c.Client (.RemoveUser username) with
  | some e1 =>
    simp only [h1, Option.some.injEq] at h
    exact ⟨e1, h.symm⟩
  | none => simp [h1] at h

theorem infix_Errorf (pre username post : GoString) (err : GoError) :
    username <:+: (Errorf (pre ++ username ++ post) err).Error :=
  ⟨pre, post ++ err.Error, by simp only [Errorf, GoError.Error, List.append_assoc]⟩

theorem CreateUser_same_error (env : Env)
    (respond' : List Event → AdminClient → Call → Option GoError) (c : MinioClient)
    (tr tr' : List Event) (username password password' : GoString) (stmt : CreationStatement)
    (expiration : Int)
    (hadd : env.respond tr c.Client (.AddUser username password)
      = respond' tr' c.Client (.AddUser username password'))
    (hattach : env.respond tr c.Client (.AddUser username password) = none →
      env.respond (tr ++ [.remote c.Client (.AddUser username password)]) c.Client
          (.SetPolicy stmt.Policy username false)
        = respond' (tr' ++ [.remote c.Client (.AddUser username password')]) c.Client
          (.SetPolicy stmt.Policy username false)) :
    (c.CreateUser env tr username password stmt expiration).1
      = (c.CreateUser { env with respond := respond' } tr' username password' stmt expiration).1 := by
  unfold MinioClient.CreateUser
  simp only [← hadd]
  cases h1 : env.respond tr c.Client (.AddUser username password) with
  | some e1 => rfl
  | none =>
    simp only [← hattach h1]
    cases h2 : env.respond (tr ++ [.remote c.Client (.AddUser username password)]) c.Client
        (.SetPolicy stmt.Policy username false) with
    | some e2 => rfl
    | none => rfl

theorem UpdateUser_same_error (env : Env)
    (respond' : List Event → AdminClient → Call → Option GoError) (c : MinioClient)
    (tr tr' : List Event) (username password password' : GoString)
    (hset : env.respond tr c.Client (.SetUser username password .AccountEnabled)
      = respond' tr' c.Client (.SetUser username password' .AccountEnabled)) :
    (c.UpdateUser env tr username password).1
      = (c.UpdateUser { env with respond := respond' } tr' username password').1 := by
  unfold MinioClient.UpdateUser
  simp only [← hset]
  cases h1 : env.respond tr c.Client (.SetUser username password .AccountEnabled) with
  | some e1 => rfl
  | none => rfl

theorem NewUser_same_result (env : Env)
    (respond' : List Event → AdminClient → Call → Option GoError) (minio : Minio)
    (tr : List Event) (req : NewUserRequest) (password' : GoString)
    (hsame : ∀ client username stmt,
      BuildClient env minio.config = .ok client →
      env.Generate (tr ++ [.readProducer]) minio.usernameProducer req.UsernameConfig
        = .ok username →
      newCreationStatement env req.Statements = .ok stmt →
      env.respond (tr ++ [.readProducer] ++ [.RLock, .readConfig]) client.Client
          (.AddUser username req.Password)
        = respond' (tr ++ [.readProducer] ++ [.RLock, .readConfig]) client.Client
          (.AddUser username password') ∧
      (env.respond (tr ++ [.readProducer] ++ [.RLock, .readConfig]) client.Client
          (.AddUser username req.Password) = none →
        env.respond (tr ++ [.readProducer] ++ [.RLock, .readConfig]
            ++ [.remote client.Client (.AddUser username req.Password)]) client.Client
            (.SetPolicy stmt.Policy username false)
          = respond' (tr ++ [.readProducer] ++ [.RLock, .readConfig]
            ++ [.remote client.Client (.AddUser username password')]) client.Client
            (.SetPolicy stmt.Policy username false))) :
    (NewUser env minio tr req).res
      = (NewUser { env with respond := respond' } minio tr
          { req with Password := password' }).res := by
  unfold NewUser NewUser.unlocked
  simp only [newCreationStatement_respond]
  cases hgen : env.Generate (tr ++ [.readProducer]) minio.usernameProducer req.UsernameConfig with
  | error err => rfl
  | ok username =>
    cases hstmt : newCreationStatement env req.Statements with
    | error err => rfl
    | ok stmt =>
      simp only [NewUser.locked, BuildClient_respond]
      cases hb : BuildClient env minio.config with
      | panicked => rfl
      | err e => rfl
      | ok client =>
        obtain ⟨hadd, hattach⟩ := hsame client username stmt hb hgen hstmt
        have hcreate := CreateUser_same_error env respond' client
          (tr ++ [.readProducer] ++ [.RLock, .readConfig])
          (tr ++ [.readProducer] ++ [.RLock, .readConfig])
          username req.Password password' stmt req.Expiration hadd hattach
        simp only at hcreate ⊢
        rcases hc : client.CreateUser env (tr ++ [.readProducer] ++ [.RLock, .readConfig])
          username req.Password stmt req.Expiration with ⟨r1, t1⟩
        rcases hc' : client.CreateUser { env with respond := respond' }
          (tr ++ [.readProducer] ++ [.RLock, .readConfig])
          username password' stmt req.Expiration with ⟨r2, t2⟩
        rw [hc, hc'] at hcreate
        simp only at hcreate
        subst hcreate
        rw [hc, hc']
        cases r1 <;> rfl

theorem Minio_UpdateUser_same_result (env : Env)
    (respond' : List Event → AdminClient → Call → Option GoError) (minio : Minio)
    (tr : List Event) (username : GoString) (change : ChangePassword) (password' : GoString)
    (hsame : ∀ client, BuildClient env minio.config = .ok client →
      env.respond (tr ++ [.RLock, .readConfig]) client.Client
          (.SetUser username change.NewPassword .AccountEnabled)
        = respond' (tr ++ [.RLock, .readConfig]) client.Client
          (.SetUser username password' .AccountEnabled)) :
    (UpdateUser env minio tr ⟨username, some change⟩).res
      = (UpdateUser { env with respond := respond' } minio tr
          ⟨username, some { change with NewPassword := password' }⟩).res := by
  unfold UpdateUser
  simp only [BuildClient_respond]
  cases hb : BuildClient env minio.config with
  | panicked => rfl
  | err e => rfl
  | ok client =>
    have hset := hsame client hb
    simp only [MinioClient.UpdateUser, ← hset]
    cases env.respond (tr ++ [.RLock, .readConfig]) client.Client
        (.SetUser username change.NewPassword .AccountEnabled) with
    | some e => rfl
    | none => rfl

theorem wrapper_error_shapes (env : Env) (minio : Minio) (tr : List Event) (client : MinioClient)
    (hb : BuildClient env minio.config = .ok client) :
    (∀ (req : NewUserRequest) username stmt e,
      (client.CreateUser env (tr ++ [.RLock, .readConfig]) username req.Password stmt
        req.Expiration).1 = some e →
      (NewUser.locked env minio tr req username stmt).res =
        .err (Errorf (ascii "unable to create user " ++ username ++ ascii ", ") e)) ∧
    (∀ username (change : ChangePassword) e,
      (client.UpdateUser env (tr ++ [.RLock, .readConfig]) username change.NewPassword).1
        = some e →
      (UpdateUser env minio tr ⟨username, some change⟩).res =
        .err (Errorf (ascii "unable to change password for user " ++ username ++ ascii ", ") e)) ∧
    (∀ (req : DeleteUserRequest) e,
      (client.DeleteUser env (tr ++ [.RLock, .readConfig]) req.Username).1 = some e →
      (DeleteUser env minio tr req).res =
        .err (Errorf (ascii "unable to delete user " ++ req.Username ++ ascii ", ") e)) := by
  refine ⟨?_, ?_, ?_⟩
  · intro req username stmt e he
    unfold NewUser.locked
    simp only [hb]
    rcases hc : client.CreateUser env (tr ++ [.RLock, .readConfig]) username req.Password stmt
      req.Expiration with ⟨r, t⟩
    rw [hc] at he
    simp only at he
    subst he
    rw [hc]
  · intro username change e he
    unfold UpdateUser
    simp only [hb]
    rcases hc : client.UpdateUser env (tr ++ [.RLock, .readConfig]) username
      change.NewPassword with ⟨r, t⟩
    rw [hc] at he
    simp only at he
    subst he
    rw [hc]
  · intro req e he
    unfold DeleteUser
    simp only [hb]
    rcases hc : client.DeleteUser env (tr ++ [.RLock, .readConfig]) req.Username with ⟨r, t⟩
    rw [hc] at he
    simp only at he
    subst he
    rw [hc]

/-- C7. The error of the adapter operations `CreateUser`, `UpdateUser` and
`DeleteUser` is a fixed phrase, the username, the policy name in the policy step,
and the remote error; its text holds the username. The wrappers `NewUser`,
`UpdateUser` and `DeleteUser` put their own phrase and the username in front of the
adapter's error. The password is not part of the text: two runs of `CreateUser` or
`UpdateUser`, or of the wrappers `NewUser` or `UpdateUser`, that differ only in the
password and in which the remote calls return the same errors return the same
error. -/
theorem error_text_independent_of_password (env : Env)
    (respond' : List Event → AdminClient → Call → Option GoError) (c : MinioClient)
    (minio : Minio) (tr tr' : List Event) (username password password' : GoString)
    (stmt : CreationStatement) (expiration : Int) (req : NewUserRequest)
    (change : ChangePassword) :
    (∀ e, (c.CreateUser env tr username password stmt expiration).1 = some e →
      username <:+: e.Error ∧ ∃ remoteErr,
        e = Errorf (ascii "can't create user: " ++ username ++ ascii ", ") remoteErr ∨
        e = Errorf (ascii "can't set policy " ++ stmt.Policy ++ ascii " for user: " ++ username
          ++ ascii ", ") remoteErr) ∧
    (∀ e, (c.UpdateUser env tr username password).1 = some e →
      username <:+: e.Error ∧ ∃ remoteErr,
        e = Errorf (ascii "can't change password for user: " ++ username ++ ascii ", ")
          remoteErr) ∧
    (∀ e, (c.DeleteUser env tr username).1 = some e →
      username <:+: e.Error ∧ ∃ remoteErr,
        e = Errorf (ascii "can't delete user: " ++ username ++ ascii ", ") remoteErr) ∧
    (env.respond tr c.Client (.AddUser username password)
        = respond' tr' c.Client (.AddUser username password') →
      (env.respond tr c.Client (.AddUser username password) = none →
        env.respond (tr ++ [.remote c.Client (.AddUser username password)]) c.Client
            (.SetPolicy stmt.Policy username false)
          = respond' (tr' ++ [.remote c.Client (.AddUser username password')]) c.Client
            (.SetPolicy stmt.Policy username false)) →
      (c.CreateUser env tr username password stmt expiration).1
        = (c.CreateUser { env with respond := respond' } tr' username password' stmt
            expiration).1) ∧
    (env.respond tr c.Client (.SetUser username password .AccountEnabled)
        = respond' tr' c.Client (.SetUser username password' .AccountEnabled) →
      (c.UpdateUser env tr username password).1
        = (c.UpdateUser { env with respond := respond' } tr' username password').1) ∧
    ((∀ client generated parsed,
        BuildClient env minio.config = .ok client →
        env.Generate (tr ++ [.readProducer]) minio.usernameProducer req.UsernameConfig
          = .ok generated →
        newCreationStatement env req.Statements = .ok parsed →
        env.respond (tr ++ [.readProducer] ++ [.RLock, .readConfig]) client.Client
            (.AddUser generated req.Password)
          = respond' (tr ++ [.readProducer] ++ [.RLock, .readConfig]) client.Client
            (.AddUser generated password') ∧
        (env.respond (tr ++ [.readProducer] ++ [.RLock, .readConfig]) client.Client
            (.AddUser generated req.Password) = none →
          env.respond (tr ++ [.readProducer] ++ [.RLock, .readConfig]
              ++ [.remote client.Client (.AddUser generated req.Password)]) client.Client
              (.SetPolicy parsed.Policy generated false)
            = respond' (tr ++ [.readProducer] ++ [.RLock, .readConfig]
              ++ [.remote client.Client (.AddUser generated password')]) client.Client
              (.SetPolicy parsed.Policy generated false))) →
      (NewUser env minio tr req).res
        = (NewUser { env with respond := respond' } minio tr
            { req with Password := password' }).res) ∧
    ((∀ client, BuildClient env minio.config = .ok client →
        env.respond (tr ++ [.RLock, .readConfig]) client.Client
            (.SetUser username change.NewPassword .AccountEnabled)
          = respond' (tr ++ [.RLock, .readConfig]) client.Client
            (.SetUser username password' .AccountEnabled)) →
      (UpdateUser env minio tr ⟨username, some change⟩).res
        = (UpdateUser { env with respond := respond' } minio tr
            ⟨username, some { change with NewPassword := password' }⟩).res) ∧
    (∀ client, BuildClient env minio.config = .ok client →
      (∀ generated parsed e,
        (client.CreateUser env (tr ++ [.RLock, .readConfig]) generated req.Password parsed
          req.Expiration).1 = some e →
        (NewUser.locked env minio tr req generated parsed).res =
          .err (Errorf (ascii "unable to create user " ++ generated ++ ascii ", ") e)) ∧
      (∀ e, (client.UpdateUser env (tr ++ [.RLock, .readConfig]) username
          change.NewPassword).1 = some e →
        (UpdateUser env minio tr ⟨username, some change⟩).res =
          .err (Errorf (ascii "unable to change password for user " ++ username ++ ascii ", ")
            e)) ∧
      (∀ e, (client.DeleteUser env (tr ++ [.RLock, .readConfig]) username).1 = some e →
        (DeleteUser env minio tr ⟨username, ⟨[]⟩⟩).res =
          .err (Errorf (ascii "unable to delete user " ++ username ++ ascii ", ") e))) := by
  refine ⟨?_, ?_, ?_, ?_, ?_, ?_, ?_, ?_⟩
  · intro e he
    obtain ⟨remoteErr, h | h⟩ := CreateUser_error_shape env c tr username password stmt
      expiration e he
    · exact ⟨h ▸ infix_Errorf (ascii "can't create user: ") username (ascii ", ") remoteErr,
        remoteErr, Or.inl h⟩
    · refine ⟨?_, remoteErr, Or.inr h⟩
      rw [h]
      have := infix_Errorf (ascii "can't set policy " ++ stmt.Policy ++ ascii " for user: ")
        username (ascii ", ") remoteErr
      simpa only [List.append_assoc] using this
  · intro e he
    obtain ⟨remoteErr, h⟩ := UpdateUser_error_shape env c tr username password e he
    exact ⟨h ▸ infix_Errorf (ascii "can't change password for user: ") username (ascii ", ")
      remoteErr, remoteErr, h⟩
  · intro e he
    obtain ⟨remoteErr, h⟩ := DeleteUser_error_shape env c tr username e he
    exact ⟨h ▸ infix_Errorf (ascii "can't delete user: ") username (ascii ", ") remoteErr,
      remoteErr, h⟩
  · exact CreateUser_same_error env respond' c tr tr' username password password' stmt
      expiration
  · exact UpdateUser_same_error env respond' c tr tr' username password password'
  · exact NewUser_same_result env respond' minio tr req password'
  · exact Minio_UpdateUser_same_result env respond' minio tr username change password'
  · intro client hb
    obtain ⟨h1, h2, h3⟩ := wrapper_error_shapes env minio tr client hb
    exact ⟨fun generated parsed e he => h1 req generated parsed e he,
      fun e he => h2 username change e he,
      fun e he => h3 ⟨username, ⟨[]⟩⟩ e he⟩

/-- C7 against a remote side that refuses every call: creating the user `v-app1`
with the password `pw` and with the password `other` returns the same error. -/
theorem error_text_independent_of_password_witness :
    (scenarioClient.CreateUser refusingEnv [] (ascii "v-app1") (ascii "pw")
        ⟨ascii "readonly"⟩ 0).1
      = (scenarioClient.CreateUser { refusingEnv with respond := refusingEnv.respond } []
          (ascii "v-app1") (ascii "other") ⟨ascii "readonly"⟩ 0).1 :=
  (error_text_independent_of_password refusingEnv refusingEnv.respond scenarioClient
    scenarioMinio [] [] (ascii "v-app1") (ascii "pw") (ascii "other") ⟨ascii "readonly"⟩ 0
    scenarioRequest ⟨ascii "pw", ⟨[]⟩⟩).2.2.2.1 rfl (fun _ => rfl)

/-! ## Lock discipline -/

theorem CreateUser_trace (env : Env) (c : MinioClient) (tr : List Event)
    (username password : GoString) (stmt : CreationStatement) (expiration : Int) :
    (c.CreateUser env tr username password stmt expiration).2
        = tr ++ [.remote c.Client (.AddUser username password)] ∨
    (c.CreateUser env tr username password stmt expiration).2
        = tr ++ [.remote c.Client (.AddUser username password),
                 .remote c.Client (.SetPolicy stmt.Policy username false)] := by
  unfold MinioClient.CreateUser
  cases env.respond tr c.Client (.AddUser username password) with
  | some e1 => left; rfl
  | none =>
    right
    cases h2 : env.respond (tr ++ [.remote c.Client (.AddUser username password)]) c.Client
        (.SetPolicy stmt.Policy username false) with
    | some e2 => simp [h2]
    | none => simp [h2]

theorem NewUser_locked_trace (env : Env) (minio : Minio) (tr : List Event)
    (req : NewUserRequest) (username : GoString) (stmt : CreationStatement) :
    ∃ calls, (∀ ev ∈ calls, ∃ client call, ev = Event.remote client call) ∧
      (NewUser.locked env minio tr req username stmt).trace
        = tr ++ [.RLock, .readConfig] ++ calls ++ [.RUnlock] := by
  unfold NewUser.locked
  cases hb : BuildClient env minio.config with
  | panicked => exact ⟨[], by simp, by simp⟩
  | err e => exact ⟨[], by simp, by simp⟩
  | ok client =>
    rcases hc : client.CreateUser env (tr ++ [.RLock, .readConfig]) username req.Password stmt
      req.Expiration with ⟨r, t⟩
    have ht := CreateUser_trace env client (tr ++ [.RLock, .readConfig]) username req.Password
      stmt req.Expiration
    rw [hc] at ht
    simp only at ht
    rcases ht with ht | ht
    · refine ⟨[.remote client.Client (.AddUser username req.Password)], ?_, ?_⟩
      · intro ev hev
        simp only [List.mem_singleton] at hev
        exact ⟨_, _, hev⟩
      · subst ht
        simp only [hc]
        cases r <;> simp
    · refine ⟨[.remote client.Client (.AddUser username req.Password),
        .remote client.Client (.SetPolicy stmt.Policy username false)], ?_, ?_⟩
      · intro ev hev
        simp only [List.mem_cons, List.mem_singleton, List.not_mem_nil, or_false] at hev
        rcases hev with hev | hev
        · exact ⟨_, _, hev⟩
        · exact ⟨_, _, hev⟩
      · subst ht
        simp only [hc]
        cases r <;> simp

theorem NewUser_trace_head (env : Env) (minio : Minio) (req : NewUserRequest) :
    ∃ rest, (NewUser env minio [] req).trace = .readProducer :: rest := by
  unfold NewUser NewUser.unlocked
  simp only [List.nil_append]
  cases hgen : env.Generate [.readProducer] minio.usernameProducer req.UsernameConfig with
  | error err => exact ⟨[], rfl⟩
  | ok username =>
    cases hstmt : newCreationStatement env req.Statements with
    | error err => exact ⟨[], rfl⟩
    | ok stmt =>
      obtain ⟨calls, -, hcalls⟩ := NewUser_locked_trace env minio [.readProducer] req
        username stmt
      exact ⟨[.RLock, .readConfig] ++ calls ++ [.RUnlock], by simp [hcalls]⟩

theorem lockDiscipline_remote (held : Held) (calls rest : List Event)
    (hcalls : ∀ ev ∈ calls, ∃ client call, ev = Event.remote client call) :
    lockDiscipline held (calls ++ rest) = lockDiscipline held rest := by
  induction calls with
  | nil => rfl
  | cons ev calls ih =>
    obtain ⟨client, call, hev⟩ := hcalls ev (List.mem_cons_self _ _)
    subst hev
    simp only [List.cons_append, lockDiscipline]
    exact ih (fun ev hev => hcalls ev (List.mem_cons_of_mem _ hev))

/-- The part of C10 that holds: `UpdateUser`, `DeleteUser` and `SecretValues` read
`config` only between `RLock` and `RUnlock`, `Initialize` writes both fields only
between `Lock` and `Unlock`, and the part of `NewUser` that starts at `RLock` reads
`config` under the read lock. -/
theorem lockDiscipline_holds (env : Env) (minio : Minio) :
    (∀ req, lockDiscipline .free (UpdateUser env minio [] req).trace = true) ∧
    (∀ req, lockDiscipline .free (DeleteUser env minio [] req).trace = true) ∧
    lockDiscipline .free (SecretValues minio []).2.2 = true ∧
    (∀ req, lockDiscipline .free (Initialize env minio [] req).trace = true) ∧
    (∀ req username stmt,
      lockDiscipline .free (NewUser.locked env minio [] req username stmt).trace = true) := by
  refine ⟨?_, ?_, ?_, ?_, ?_⟩
  · intro req
    unfold UpdateUser
    cases BuildClient env minio.config with
    | panicked => rfl
    | err e => rfl
    | ok client =>
      cases req.Password with
      | none => rfl
      | some password =>
        simp only [MinioClient.UpdateUser]
        cases env.respond ([] ++ [.RLock, .readConfig]) client.Client
          (.SetUser req.Username password.NewPassword .AccountEnabled) <;> rfl
  · intro req
    unfold DeleteUser
    cases BuildClient env minio.config with
    | panicked => rfl
    | err e => rfl
    | ok client =>
      simp only [MinioClient.DeleteUser]
      cases env.respond ([] ++ [.RLock, .readConfig]) client.Client
        (.RemoveUser req.Username) <;> rfl
  · rfl
  · intro req
    unfold Initialize
    cases env.GetString req.Config (ascii "username_template") with
    | error err => rfl
    | ok t =>
      simp only
      cases env.NewTemplate (if t = [] then defaultUserNameTemplate else t) with
      | error err => rfl
      | ok up =>
        simp only
        cases env.Generate [] up {} with
        | error err => rfl
        | ok sample =>
          simp only
          cases checkRequired req.Config requiredFields with
          | some err => rfl
          | none =>
            simp only
            cases req.VerifyConnection with
            | false => rfl
            | true =>
              simp only [if_true]
              cases BuildClient env req.Config with
              | panicked => rfl
              | err e => rfl
              | ok client =>
                simp only
                cases env.respond [] client.Client .ServerInfo <;> rfl
  · intro req username stmt
    obtain ⟨calls, hcalls, htrace⟩ := NewUser_locked_trace env minio [] req username stmt
    have hshape : [] ++ [Event.RLock, Event.readConfig] ++ calls ++ [Event.RUnlock]
        = .RLock :: .readConfig :: (calls ++ [.RUnlock]) := by simp
    rw [htrace, hshape]
    show (decide (Held.free = Held.free) && (decide (Held.shared ≠ Held.free)
      && lockDiscipline .shared (calls ++ [.RUnlock]))) = true
    rw [lockDiscipline_remote _ _ _ hcalls]
    rfl

/-- C10 on `NewUser`: the first event of every run is the read of
`usernameProducer`, issued before `RLock`, so the run does not keep the lock
discipline. In the run of the worked scenario in which another goroutine commits a
later configuration (another endpoint, the template `{{.RoleName}}`) between that
read and `RLock`, the account is created at the endpoint of the later configuration
under the username the earlier generator produced, whereas a run that starts after
the commit names it `svc`: a generator and a configuration that were not committed
together. -/
theorem NewUser_reads_generator_outside_lock :
    (∀ env minio req, ∃ rest, (NewUser env minio [] req).trace = .readProducer :: rest) ∧
    (∀ env minio req, lockDiscipline .free (NewUser env minio [] req).trace = false) ∧
    (Initialize refEnv scenarioMinio [.readProducer] ⟨laterConfig, false⟩).minio
      = ⟨laterConfig, ⟨roleNameTemplate⟩⟩ ∧
    (NewUser.interleaved refEnv scenarioMinio [] scenarioRequest ⟨laterConfig, false⟩).res
      = .ok ⟨ascii "v-app1-svc-AAAAAAAAAAAAAAAAAAAA-1700000000"⟩ ∧
    (NewUser.interleaved refEnv scenarioMinio [] scenarioRequest ⟨laterConfig, false⟩).trace
      = [.readProducer, .Lock, .writeProducer, .writeConfig, .Unlock, .RLock, .readConfig,
         .remote ⟨ascii "other.local:9000", ascii "admin", ascii "s3cr3t", true⟩
           (.AddUser (ascii "v-app1-svc-AAAAAAAAAAAAAAAAAAAA-1700000000") (ascii "pw")),
         .remote ⟨ascii "other.local:9000", ascii "admin", ascii "s3cr3t", true⟩
           (.SetPolicy (ascii "readonly")
             (ascii "v-app1-svc-AAAAAAAAAAAAAAAAAAAA-1700000000") false),
         .RUnlock] ∧
    (NewUser refEnv ⟨laterConfig, ⟨roleNameTemplate⟩⟩ [] scenarioRequest).res
      = .ok ⟨ascii "svc"⟩ := by
  refine ⟨NewUser_trace_head, ?_, by decide, by decide, by decide, by decide⟩
  intro env minio req
  obtain ⟨rest, hrest⟩ := NewUser_trace_head env minio req
  rw [hrest]
  rfl

end VaultMinio
